import Mathlib

/-!
Verification of the page-parallel OCR pipeline (src/src/ocrmypdf.py and
src/ocrmypdf/ghostscript.py) against its natural-language specification.

The embedding models file names as lists of characters, external subprocess
runs as explicit outcome records, and each pipeline stage as a pure function
from its inputs plus the outcome of its external tool invocation to the logs
it emits, the artifact it produces, and the exception it raises, if any.
-/

namespace OCRmyPDF

/-- A file name or path, modelled as its list of characters. -/
abbrev FileName := List Char

/-- Log levels of the wrapped logger facade (class WrappedLogger in the
source routes every call through a mutex; the mutex itself is a concurrency
artifact, the routing of messages to levels is modelled here). -/
inductive LogLevel where
  | debug
  | info
  | warning
  | error
  deriving DecidableEq, Repr

/-- One emitted log line: its level and its message. -/
abbrev LogEvent := LogLevel × String

/-- The character for a single decimal digit d, with d below 10. -/
def digitChar (d : Nat) : Char := Char.ofNat (48 + d)

/-- Fuel-driven little-endian decimal digit characters of a number.
The fuel argument makes the recursion structural so that concrete
evaluation reduces inside the kernel. -/
def decimalCharsAux : Nat → Nat → List Char
  | _, 0 => []
  | 0, _ + 1 => []
  | f + 1, n + 1 => digitChar ((n + 1) % 10) :: decimalCharsAux f ((n + 1) / 10)

/-- The decimal digit characters of a number, most significant first,
as produced by the Python percent-d conversion for nonnegative input.
For 0 this is the empty list; the zero padding below covers that case
exactly as percent-06d prints 000000 for 0. -/
def decimalChars (n : Nat) : List Char := (decimalCharsAux n n).reverse

/-- The Python format conversion percent-06d applied to a nonnegative
number: the decimal digits, left padded with the character 0 to width six
(wider numbers print in full). Source line 322 builds the split output
name pattern with this conversion. -/
def percent06d (n : Nat) : List Char :=
  List.replicate (6 - (decimalChars n).length) '0' ++ decimalChars n

/-- Whether a character is a decimal digit, by its code point. -/
def isDigitChar (c : Char) : Bool := 48 ≤ c.toNat && c.toNat ≤ 57

/-- The numeric value of a digit string, most significant digit first,
folding from the left exactly as positional notation accumulates. -/
def digitsVal (s : List Char) : Nat :=
  s.foldl (fun acc c => 10 * acc + (c.toNat - 48)) 0

/-- The Python int constructor applied to a string of digits: succeeds on
a nonempty all-digit string and raises ValueError otherwise (modelled as
none). Signs and surrounding whitespace never occur in the file-name
slices this pipeline parses, so they are not modelled. -/
def pyInt (s : List Char) : Option Int :=
  if s ≠ [] && s.all isDigitChar then some ((digitsVal s : Int)) else none

/-- Python list subscription with an integer index: nonnegative indexes
count from the front, negative indexes count from the back, and an index
out of range raises IndexError (modelled as none). -/
def pyGet {α : Type} (l : List α) (i : Int) : Option α :=
  if 0 ≤ i then l.get? i.toNat
  else if (-i).toNat ≤ l.length then l.get? (l.length - (-i).toNat)
  else none

/-- The basename of a path: the part after the last slash, as
os.path.basename yields for the artifact paths this pipeline builds. -/
def basename (s : FileName) : FileName :=
  (s.reverse.takeWhile (fun c => c ≠ '/')).reverse

/-- One embedded image of a page, as the pageinfo dictionaries record it:
color component count, bits per component, and colorspace class (the
source compares the color entry against the literal string color). -/
structure ImageRef where
  comp : Nat
  bpc : Nat
  color : String
  deriving DecidableEq, Repr

/-- The per-page descriptor held in the shared metadata list: pixel
dimensions, the resolutions used for text placement, the render target
resolutions, and the embedded image composition. Created once when the
repaired document is examined and never mutated afterwards. -/
structure PageDescriptor where
  width_pixels : Nat
  height_pixels : Nat
  xres : ℚ
  yres : ℚ
  xres_render : ℚ
  yres_render : ℚ
  images : List ImageRef
  deriving DecidableEq, Repr

/-- The process-shared metadata list (the manager list named pdfinfo in
the source), an ordered collection of page descriptors. -/
abbrev PdfInfoStore := List PageDescriptor

/-- Errors a stage can raise, mirroring the Python exceptions the source
raises: CalledProcessError carries the exit code and the argument vector
of the failed tool (as check_call and the explicit raise in ocr_tesseract
produce), RuntimeError carries a message (raised by validate_pdfa). -/
inductive StageError where
  | calledProcessError (returncode : Int) (cmd : List String)
  | runtimeError (msg : String)
  deriving DecidableEq, Repr

/-- The outcome of running one stage body: either a normal return with a
value or a raised exception. -/
inductive StageOutcome (α : Type) where
  | ok (value : α)
  | raised (e : StageError)
  deriving DecidableEq, Repr

/-- The observable result of one external process run with captured
streams: exit code, captured standard output and captured standard
error. -/
structure ProcResult where
  returncode : Int
  stdout : String
  stderr : String
  deriving DecidableEq, Repr

/-- Source lines 327 to 332, function get_pageinfo: parse the first six
characters of the basename of the artifact as an integer, subtract one,
and read the shared metadata list at that index (under the metadata
lock). A non-digit prefix raises ValueError and an out-of-range index
raises IndexError, both modelled as none. -/
def get_pageinfo (input_file : FileName) (pdfinfo : PdfInfoStore) :
    Option PageDescriptor :=
  (pyInt ((basename input_file).take 6)).bind fun v => pyGet pdfinfo (v - 1)

/-- The argument vector of the repair tool, source lines 252 to 255. -/
def args_mutool (input_file output_file : String) : List String :=
  ["mutool", "clean", input_file, output_file]

/-- Modelled from the spec: pdf_get_all_pageinfo (imported from the
pageinfo module, which is not among the given sources) examines the
repaired document and returns one descriptor per page, in page order.
A repaired document is represented here directly by that list of page
descriptors. -/
def pdf_get_all_pageinfo (repaired_doc : List PageDescriptor) :
    List PageDescriptor := repaired_doc

/-- Source lines 246 to 260, stage repair_pdf: run mutool clean via
check_call (which raises CalledProcessError carrying the exit code when
the tool exits nonzero), then, under the metadata lock, extend the shared
metadata list with one descriptor per page of the repaired document.
There is no guard against extending an already populated list. -/
def repair_pdf (input_file output_file : String)
    (mutool_returncode : Int) (repaired_doc : List PageDescriptor)
    (pdfinfo : PdfInfoStore) : StageOutcome PdfInfoStore :=
  if mutool_returncode ≠ 0 then
    .raised (.calledProcessError mutool_returncode
      (args_mutool input_file output_file))
  else
    .ok (pdfinfo ++ pdf_get_all_pageinfo repaired_doc)

/-- The argument vector of the page separation tool, source lines 319
to 323: the output pattern is the root followed by the percent-06d
conversion and the page suffix. -/
def args_pdfseparate (input_file root_str : String) : List String :=
  ["pdfseparate", input_file, root_str ++ "%06d.page.pdf"]

/-- The name of the page artifact the separation tool writes for the
one-based page number pagenum: the six-digit zero-padded number followed
by .page.pdf, appended to the output root. The separation tool fills the
percent-06d pattern with one-based page numbers. -/
def splitPageName (root : FileName) (pagenum : Nat) : FileName :=
  root ++ percent06d pagenum ++ ".page.pdf".toList

/-- Source lines 308 to 324, stage split_pages: remove stale page
artifacts, then run pdfseparate via check_call, which raises
CalledProcessError carrying the exit code when the tool exits
nonzero. -/
def split_pages (input_file root_str : String)
    (pdfseparate_returncode : Int) : StageOutcome Unit :=
  if pdfseparate_returncode ≠ 0 then
    .raised (.calledProcessError pdfseparate_returncode
      (args_pdfseparate input_file root_str))
  else .ok ()

/-- Source lines 350 to 356: choose the raster device from the image
composition of the page. The device starts as png16m (24-bit color); if
every image has one color component it becomes pngmono when every image
has one bit per component, otherwise pnggray when no image has a color
colorspace. -/
def rasterDevice (images : List ImageRef) : String :=
  if images.all fun image => image.comp == 1 then
    if images.all fun image => image.bpc == 1 then "pngmono"
    else if !(images.any fun image => image.color == "color") then "pnggray"
    else "png16m"
  else "png16m"

/-- The observable result of one run of the rasterize stage body: the
raster device it selected, the log lines it emitted, and whether it
copied the temporary raster to the stage output. -/
structure RasterRun where
  device : String
  logs : List LogEvent
  copiedOutput : Bool
  deriving DecidableEq, Repr

/-- Source lines 341 to 380, stage rasterize_with_ghostscript: look up
the page descriptor by file-name prefix, select the raster device from
the image composition, run ghostscript with captured streams, route
nonempty captured stdout to the debug sink and nonempty captured stderr
to the error sink, and on exit code zero copy the temporary file to the
output; on a nonzero exit code the stage only logs an error message and
returns without raising and without producing its output. The outer
Option is the descriptor lookup (none models the Python exception from a
malformed prefix or an out-of-range index). -/
def rasterize_with_ghostscript (input_file : FileName)
    (pdfinfo : PdfInfoStore) (gs : ProcResult) :
    Option (StageOutcome RasterRun) :=
  (get_pageinfo input_file pdfinfo).map fun pageinfo =>
    let stream_logs :=
      (if gs.stdout ≠ "" then [(LogLevel.debug, gs.stdout)] else []) ++
      (if gs.stderr ≠ "" then [(LogLevel.error, gs.stderr)] else [])
    if gs.returncode == 0 then
      .ok ⟨rasterDevice pageinfo.images, stream_logs, true⟩
    else
      .ok ⟨rasterDevice pageinfo.images,
        stream_logs ++ [(LogLevel.error, "Ghostscript rendering failed")],
        false⟩

/-- The content of an hOCR artifact, abstracted to what the later stages
observe: the page pixel dimensions it declares and the list of recognized
words it positions. -/
structure HocrFile where
  page_width : Nat
  page_height : Nat
  words : List String
  deriving DecidableEq, Repr

/-- Modelled from the spec: tesseract.HOCR_TEMPLATE (the tesseract module
is not among the given sources) is an empty but structurally valid hOCR
document carrying the given page pixel dimensions and no recognized
text. -/
def hocrTemplate (width_pixels height_pixels : Nat) : HocrFile :=
  ⟨width_pixels, height_pixels, []⟩

/-- The argument vector of the text recognition tool, source lines 397
to 403: the language selection joined with plus signs, the input and
output names, the hocr mode word, then the configuration list. -/
def args_tesseract (language : List String) (config : List String)
    (input_file output_file : String) : List String :=
  ["tesseract", "-l", String.intercalate "+" language,
    input_file, output_file, "hocr"] ++ config

/-- How one text recognition process run ended: either the fixed 180
second timeout elapsed (after which the source kills the process and
drains its streams), or the process completed with an exit code and
captured streams. -/
inductive TessOutcome where
  | timedOut
  | completed (result : ProcResult)
  deriving DecidableEq, Repr

/-- Source lines 388 to 445, stage ocr_tesseract: look up the page
descriptor by file-name prefix, run the text recognition tool with a 180
second timeout. If the timeout elapses, the process is killed, its
streams are drained, and an hOCR file with no recognized text is written
from the template with the page dimensions, with no error raised and no
stream logging. Otherwise, for every completed run, nonempty captured
stdout is first routed to the info sink and nonempty captured stderr to
the error sink (source lines 419 to 422, before the exit-code check);
then a nonzero exit code raises CalledProcessError carrying the exit
code and argument vector, and on exit code zero the tool output becomes
the stage output (after the version-dependent suffix normalization and
the title-line rewrite, which rename and reformat the artifact without
changing the recognized words; tool_output is the artifact content
after that normalization). The result pairs the emitted log lines with
the stage outcome, so the logs of a failing completed run are kept. -/
def ocr_tesseract (language config : List String) (input_file : FileName)
    (output_file : String) (pdfinfo : PdfInfoStore) (outcome : TessOutcome)
    (tool_output : HocrFile) :
    Option (List LogEvent × StageOutcome HocrFile) :=
  (get_pageinfo input_file pdfinfo).map fun pageinfo =>
    match outcome with
    | .timedOut =>
        ([], .ok (hocrTemplate pageinfo.width_pixels
          pageinfo.height_pixels))
    | .completed r =>
        let stream_logs :=
          (if r.stdout ≠ "" then [(LogLevel.info, r.stdout)] else []) ++
          (if r.stderr ≠ "" then [(LogLevel.error, r.stderr)] else [])
        (stream_logs,
          if r.returncode ≠ 0 then
            .raised (.calledProcessError r.returncode
              (args_tesseract language config (String.mk input_file)
                output_file))
          else .ok tool_output)

/-- Whether a file name ends with the given pattern, as the Python
endswith test used to pick files out of the collate input group. -/
def nameEndsWith (s pat : FileName) : Bool := pat.isSuffixOf s

/-- The Python round builtin on an exact rational: round to the nearest
integer, ties to the even integer. -/
def pyRound (q : ℚ) : Int :=
  if q - ⌊q⌋ < 1 / 2 then ⌊q⌋
  else if 1 / 2 < q - ⌊q⌋ then ⌊q⌋ + 1
  else if 2 ∣ ⌊q⌋ then ⌊q⌋ else ⌊q⌋ + 1

/-- The observable shape of the single-page document the render stage
emits: its page count, the image file placed as the visible layer, the
number of positioned glyph groups (recognized words), whether the text
is invisible ink, whether bounding boxes are drawn, and the resolution
of the pixel-to-point transform. -/
structure RenderedPage where
  page_count : Nat
  imageLayer : Option FileName
  glyphs : Nat
  invisibleText : Bool
  showBoundingboxes : Bool
  dpi : Int
  deriving DecidableEq, Repr

/-- Modelled from the spec: HocrTransform (the hocrtransform module is
not among the given sources) renders one single-page document whose
visible layer is the given image, placing one glyph group per recognized
word of the hOCR input with the pixel-to-point transform given by dpi;
invisibleText makes the text non-rendering but selectable and
showBoundingboxes draws box decoration. -/
def hocrTransform_to_pdf (hocr : HocrFile) (dpi : Int)
    (imageFileName : Option FileName)
    (boundingboxes invisible : Bool) : RenderedPage :=
  ⟨1, imageFileName, hocr.words.length, invisible, boundingboxes, dpi⟩

/-- Source lines 452 to 466, stage render_page: pick the hOCR artifact
and the page image out of the collate input group by their suffixes
(next over a generator raises StopIteration when no file matches,
modelled as none), look up the page descriptor by the image file-name
prefix, compute dpi as the Python round of the larger of the xres and
yres descriptor entries, and emit the single-page document with the
image as visible layer, invisible text and no bounding boxes.
hocr_content is the content of the hOCR artifact named in the group. -/
def render_page (infiles : List FileName) (pdfinfo : PdfInfoStore)
    (hocr_content : HocrFile) : Option RenderedPage :=
  (infiles.find? fun ii => nameEndsWith ii ".hocr".toList).bind fun _ =>
  (infiles.find? fun ii => nameEndsWith ii ".page.png".toList).bind
    fun image =>
  (get_pageinfo image pdfinfo).map fun pageinfo =>
    hocrTransform_to_pdf hocr_content
      (pyRound (max pageinfo.xres pageinfo.yres)) (some image) false true

/-- The fixed leading part of the final merge argument vector, source
lines 496 to 509, up to and including the output file option. -/
def mergeGsHead (tmp_name : String) : List String :=
  ["gs", "-dQUIET", "-dBATCH", "-dNOPAUSE", "-sDEVICE=pdfwrite",
    "-sColorConversionStrategy=/RGB", "-sProcessColorModel=DeviceRGB",
    "-dPDFA", "-sPDFACompatibilityPolicy=2", "-sOutputICCProfile=srgb.icc",
    "-sOutputFile=" ++ tmp_name]

/-- Source lines 482 to 512, stage merge_pages: the last input file is
the postscript format-declaration stub and all the files before it are
the per-page rendered documents; the compositor argument vector is the
fixed head, then the postscript stub, then the page documents in input
order. check_call raises CalledProcessError carrying the exit code when
the compositor exits nonzero, and only on success is the temporary
output copied to the stage output. Indexing an empty input list raises
IndexError, modelled as none; the returned argument vector exposes the
order in which the documents reach the compositor. -/
def merge_pages (input_files : List FileName) (tmp_name : String)
    (gs_returncode : Int) : Option (StageOutcome (List String)) :=
  (pyGet input_files (-1)).map fun postscript =>
    let args_gs := mergeGsHead tmp_name ++ [String.mk postscript] ++
      (input_files.dropLast.map String.mk)
    if gs_returncode ≠ 0 then
      .raised (.calledProcessError gs_returncode args_gs)
    else .ok args_gs

/-- The name of the rendered single-page document for the one-based page
number pagenum, as the collate output pattern of source line 450 builds
it from the captured six-digit prefix. -/
def renderedPageName (pagenum : Nat) : FileName :=
  percent06d pagenum ++ ".rendered.pdf".toList

/-- The name of the rasterized page image for the one-based page number
pagenum, as the suffix replacement of the rasterize stage derives it
from the split artifact name. -/
def pageImageName (pagenum : Nat) : FileName :=
  percent06d pagenum ++ ".page.png".toList

/-- The name of the hOCR artifact for the one-based page number pagenum,
as the suffix replacement of the text recognition stage derives it from
the page image name. -/
def pageHocrName (pagenum : Nat) : FileName :=
  percent06d pagenum ++ ".hocr".toList

/-- Modelled from the spec: the stage scheduler (the ruffus library, not
among the given sources) delivers to the merge stage the outputs of its
upstream stages in declaration order, that is all per-page rendered
documents in ascending page order followed by the single postscript
format-declaration stub. -/
def mergeInputs (page_count : Nat) (postscript_stub : FileName) :
    List FileName :=
  (List.range page_count).map (fun i => renderedPageName (i + 1)) ++
    [postscript_stub]

/-- Whether the pattern occurs contiguously anywhere in the haystack,
the unanchored regex search on a fixed pattern. -/
def occursIn (pat : List Char) : List Char → Bool
  | [] => pat.isEmpty
  | c :: rest => pat.isPrefixOf (c :: rest) || occursIn pat rest

/-- Lowercase a character list, as the IGNORECASE regex flag makes every
comparison of the validator report case insensitive. -/
def lowerAll (s : List Char) : List Char := s.map Char.toLower

/-- Whether a character is whitespace in the sense of the regex class
backslash-s. -/
def isSpaceChar (c : Char) : Bool :=
  c == ' ' || c == '\t' || c == '\n' || c == '\r' || c == '\x0b' ||
    c == '\x0c'

/-- The suffixes of the report that start right after a newline
character, where the MULTILINE regex flag lets a caret match. -/
def tailsAfterNewline : List Char → List (List Char)
  | [] => []
  | c :: rest =>
      (if c = '\n' then [rest] else []) ++ tailsAfterNewline rest

/-- Every suffix of the report at which a caret under MULTILINE can
match: the whole report, and the suffix after each newline. -/
def lineStartSuffixes (s : List Char) : List (List Char) :=
  s :: tailsAfterNewline s

/-- Whether the anchored pattern matches at one caret position: first a
nonempty run of whitespace (which, as the regex class backslash-s-plus,
may span newline characters and hence whitespace-only lines), then the
keyword, then the pattern somewhere later on the same line (dot does
not match a newline), all case insensitively. This is the shape of the
three anchored searches of validate_pdfa, source lines 545 to 558. -/
def matchAtLineStart (keyword pat ss : List Char) : Bool :=
  let rest := lowerAll (ss.dropWhile isSpaceChar)
  !(ss.takeWhile isSpaceChar).isEmpty &&
    rest.take keyword.length == keyword &&
    occursIn pat ((rest.drop keyword.length).takeWhile
      (fun c => c ≠ '\n'))

/-- Whether the anchored pattern matches at some caret position of the
report. -/
def reportSearch (keyword pat report_text : List Char) : Bool :=
  (lineStartSuffixes report_text).any (matchAtLineStart keyword pat)

/-- Source lines 544 to 553: the report marks the candidate not valid
when ErrorMessage occurs anywhere, or a Status line says not valid, or a
Status line says Not well-formed, all case insensitively. -/
def pdfIsValid (report_text : List Char) : Bool :=
  !(occursIn "errormessage".toList (lowerAll report_text)) &&
  !(reportSearch "status".toList "not valid".toList report_text) &&
  !(reportSearch "status".toList "not well-formed".toList report_text)

/-- Source lines 555 to 558: the report marks the candidate as PDF/A
when a Profile line mentions PDF/A-1, case insensitively. -/
def pdfIsPdfa (report_text : List Char) : Bool :=
  reportSearch "profile:".toList "pdf/a-1".toList report_text

/-- Source lines 515 to 566, stage validate_pdfa: run the jhove
validator with captured stdout (stderr is sent to the null device), log
the captured report at the debug level unconditionally (source line
538), and on a nonzero exit code log it again at the error level
(line 540) and then raise RuntimeError, delivering nothing. On exit
code zero classify the report: an invalid report logs a warning, a
valid but non PDF/A report logs a warning, a valid PDF/A report logs an
info line; in every one of these classifications the candidate is then
copied to the destination output path. The result pairs the emitted log
lines with the stage outcome, whose ok value records that the copy to
the destination output path happened. -/
def validate_pdfa (jhove : ProcResult) : List LogEvent × StageOutcome Bool :=
  let report_text := jhove.stdout.toList
  if jhove.returncode ≠ 0 then
    ([(LogLevel.debug, jhove.stdout), (LogLevel.error, jhove.stdout)],
      .raised (.runtimeError
        "Unexpected error while checking compliance to PDF/A file."))
  else
    let class_log :=
      if !(pdfIsValid report_text) then
        [(LogLevel.warning, "Output file: The generated PDF/A file is INVALID")]
      else if pdfIsValid report_text && !(pdfIsPdfa report_text) then
        [(LogLevel.warning,
          "Output file: Generated file is a VALID PDF but not PDF/A")]
      else if pdfIsValid report_text && pdfIsPdfa report_text then
        [(LogLevel.info, "Output file: The generated PDF/A file is VALID")]
      else []
    ((LogLevel.debug, jhove.stdout) :: class_log, .ok true)

/-- The device selection rule exactly as the specification words it:
1-bit monochrome when every embedded image has one color component and
one bit per component; grayscale when every image has one component,
not all are one bit per component, and no image has the color
colorspace; 24-bit color otherwise. -/
def specRasterDevice (images : List ImageRef) : String :=
  if images.all fun image => image.comp == 1 && image.bpc == 1 then
    "pngmono"
  else if (images.all fun image => image.comp == 1) &&
      !(images.all fun image => image.bpc == 1) &&
      (images.all fun image => !(image.color == "color")) then
    "pnggray"
  else "png16m"

/-- The result of running the per-page tail of the pipeline (text
recognition followed by render) for one page: a lookup failure models a
Python exception escaping from the metadata parse or read, a stage
failure models a raised stage error, and rendered carries the page
document produced. -/
inductive PageResult where
  | lookupFailure
  | stageFailure (e : StageError)
  | rendered (page : RenderedPage)
  deriving DecidableEq, Repr

/-- The per-page tail of the pipeline for the zero-based page i: run the
text recognition stage on the page image artifact, and if it returns
normally run the render stage on the collate group of the page image and
the page hOCR artifact, feeding it the hOCR content the recognition
stage produced. -/
def processPage (language config : List String) (pdfinfo : PdfInfoStore)
    (i : Nat) (outcome : TessOutcome) (tool_output : HocrFile) :
    PageResult :=
  match ocr_tesseract language config (pageImageName (i + 1))
      (String.mk (pageHocrName (i + 1))) pdfinfo outcome tool_output with
  | none => .lookupFailure
  | some (_, .raised e) => .stageFailure e
  | some (_, .ok hocr_content) =>
    match render_page [pageImageName (i + 1), pageHocrName (i + 1)]
        pdfinfo hocr_content with
    | none => .lookupFailure
    | some page => .rendered page

/-- The per-page results of a whole job over page_count pages, each page
processed with its own recognition outcome and tool output. -/
def jobRender (language config : List String) (pdfinfo : PdfInfoStore)
    (page_count : Nat) (outcomes : Nat → TessOutcome)
    (tool_outputs : Nat → HocrFile) : List PageResult :=
  (List.range page_count).map fun j =>
    processPage language config pdfinfo j (outcomes j) (tool_outputs j)

/-- A sample descriptor of a plain scanned page with no embedded image
records and integral 300 dpi resolutions, used to instantiate theorems
at concrete inputs. -/
def samplePage : PageDescriptor := ⟨2550, 3300, 300, 300, 300, 300, []⟩

/-- A sample descriptor whose larger text-placement resolution is not an
integer. -/
def sampleFractionalPage : PageDescriptor :=
  ⟨2550, 3300, 3007 / 10, 300, 300, 300, []⟩

/-- A sample one-component one-bit embedded image record. -/
def sampleMonoImage : ImageRef := ⟨1, 1, "gray"⟩

/-- A sample one-component eight-bit grayscale embedded image record. -/
def sampleGrayImage : ImageRef := ⟨1, 8, "gray"⟩

theorem decimalCharsAux_eq : ∀ (f n : Nat), n ≤ f →
    decimalCharsAux f n = (Nat.digits 10 n).map digitChar
  | _, 0, _ => by simp [decimalCharsAux]
  | 0, n + 1, h => absurd h (by omega)
  | f + 1, n + 1, _h => by
    have hdiv : (n + 1) / 10 < n + 1 :=
      Nat.div_lt_self (Nat.succ_pos n) (by norm_num)
    rw [decimalCharsAux, Nat.digits_def' (by norm_num : 1 < 10)
      (Nat.succ_pos n), List.map_cons,
      decimalCharsAux_eq f ((n + 1) / 10) (by omega)]

theorem decimalChars_eq (n : Nat) :
    decimalChars n = ((Nat.digits 10 n).map digitChar).reverse := by
  rw [decimalChars, decimalCharsAux_eq n n le_rfl]

theorem digitChar_toNat (d : Nat) (hd : d < 10) :
    (digitChar d).toNat = 48 + d := by
  interval_cases d <;> rfl

theorem isDigitChar_digitChar (d : Nat) (hd : d < 10) :
    isDigitChar (digitChar d) = true := by
  interval_cases d <;> rfl

theorem isDigitChar_ne_slash (c : Char) (h : isDigitChar c = true) :
    c ≠ '/' := by
  intro hc
  subst hc
  simp [isDigitChar] at h

theorem digitsVal_replicate_zero (k : Nat) (s : List Char) :
    digitsVal (List.replicate k '0' ++ s) = digitsVal s := by
  unfold digitsVal
  rw [List.foldl_append]
  have : List.foldl (fun acc c => 10 * acc + (c.toNat - 48)) 0
      (List.replicate k '0') = 0 := by
    induction k with
    | zero => rfl
    | succ k ih => rw [List.replicate_succ, List.foldl_cons]; simpa using ih
  rw [this]

theorem digitsVal_decimal (L : List Nat) (hL : ∀ d ∈ L, d < 10) :
    digitsVal ((L.map digitChar).reverse) = Nat.ofDigits 10 L := by
  unfold digitsVal
  rw [List.foldl_reverse]
  induction L with
  | nil => simp [Nat.ofDigits]
  | cons d L ih =>
    rw [List.map_cons, List.foldr_cons, Nat.ofDigits_cons,
      ih (fun x hx => hL x (List.mem_cons_of_mem d hx)),
      digitChar_toNat d (hL d (List.mem_cons_self d L))]
    omega

theorem digitsVal_percent06d (n : Nat) : digitsVal (percent06d n) = n := by
  rw [percent06d, digitsVal_replicate_zero, decimalChars_eq,
    digitsVal_decimal _ (fun d hd => Nat.digits_lt_base (by norm_num) hd),
    Nat.ofDigits_digits]

theorem percent06d_isDigit (n : Nat) :
    ∀ c ∈ percent06d n, isDigitChar c = true := by
  intro c hc
  rw [percent06d] at hc
  rcases List.mem_append.mp hc with h | h
  · rw [List.eq_of_mem_replicate h]; rfl
  · rw [decimalChars_eq] at h
    rcases List.mem_map.mp (List.mem_reverse.mp h) with ⟨d, hd, rfl⟩
    exact isDigitChar_digitChar d (Nat.digits_lt_base (by norm_num) hd)

theorem percent06d_ne_nil (n : Nat) : percent06d n ≠ [] := by
  rw [percent06d]
  intro h
  rcases List.append_eq_nil.mp h with ⟨h1, h2⟩
  rw [h2] at h1
  simp at h1

theorem pyInt_percent06d (n : Nat) :
    pyInt (percent06d n) = some (n : Int) := by
  rw [pyInt, if_pos, digitsVal_percent06d]
  simp only [Bool.and_eq_true, decide_eq_true_eq, List.all_eq_true]
  exact ⟨percent06d_ne_nil n, percent06d_isDigit n⟩

theorem digits_length_le (n : Nat) (h : n < 10 ^ 6) :
    (Nat.digits 10 n).length ≤ 6 := by
  rcases Nat.eq_zero_or_pos n with rfl | hn
  · simp
  · rw [Nat.digits_len 10 n (by norm_num) (by omega)]
    have := (Nat.lt_pow_iff_log_lt (by norm_num) (by omega : n ≠ 0)).mp h
    omega

theorem percent06d_length (n : Nat) (h : n < 10 ^ 6) :
    (percent06d n).length = 6 := by
  have hlen : (decimalChars n).length ≤ 6 := by
    rw [decimalChars_eq, List.length_reverse, List.length_map]
    exact digits_length_le n h
  rw [percent06d, List.length_append, List.length_replicate]
  omega

theorem take6_percent06d (n : Nat) (h : n < 10 ^ 6) (tail : FileName) :
    (percent06d n ++ tail).take 6 = percent06d n := by
  rw [← percent06d_length n h, List.take_left]

theorem takeWhile_append_all {p : Char → Bool} (a b : List Char)
    (h : ∀ c ∈ a, p c = true) :
    (a ++ b).takeWhile p = a ++ b.takeWhile p := by
  induction a with
  | nil => rfl
  | cons c a ih =>
    rw [List.cons_append, List.takeWhile_cons,
      h c (List.mem_cons_self c a), List.cons_append,
      ih (fun x hx => h x (List.mem_cons_of_mem c hx))]
    simp

theorem takeWhile_all {p : Char → Bool} (l : List Char)
    (h : ∀ c ∈ l, p c = true) : l.takeWhile p = l := by
  have := takeWhile_append_all l [] h
  simpa using this

theorem basename_noslash (s : FileName) (h : ∀ c ∈ s, c ≠ '/') :
    basename s = s := by
  rw [basename, takeWhile_all, List.reverse_reverse]
  intro c hc
  simpa using h c (List.mem_reverse.mp hc)

theorem basename_dir (dir rest : FileName) (h : ∀ c ∈ rest, c ≠ '/') :
    basename (dir ++ '/' :: rest) = rest := by
  rw [basename, List.reverse_append, List.reverse_cons, List.append_assoc,
    takeWhile_append_all _ _ (by intro c hc; simpa using h c (List.mem_reverse.mp hc))]
  simp [List.takeWhile_cons]

theorem percent06d_ne_slash (n : Nat) : ∀ c ∈ percent06d n, c ≠ '/' :=
  fun c hc => isDigitChar_ne_slash c (percent06d_isDigit n c hc)

theorem pyGet_ofNat {α : Type} (l : List α) (i : Nat) :
    pyGet l (i : Int) = l.get? i := by
  rw [pyGet, if_pos (by omega)]
  simp

/-- The join-key lemma: for a page artifact whose basename is the six
digit zero-padded one-based page number i + 1 followed by a slash-free
tail, get_pageinfo reads the shared metadata list exactly at the
zero-based index i. -/
theorem get_pageinfo_padded (pdfinfo : PdfInfoStore) (i : Nat)
    (tail : FileName) (hi : i + 1 < 10 ^ 6)
    (htail : ∀ c ∈ tail, c ≠ '/') :
    get_pageinfo (percent06d (i + 1) ++ tail) pdfinfo = pdfinfo.get? i := by
  rw [get_pageinfo, basename_noslash _ (by
    intro c hc
    rcases List.mem_append.mp hc with h | h
    · exact percent06d_ne_slash (i + 1) c h
    · exact htail c h)]
  rw [take6_percent06d (i + 1) hi, pyInt_percent06d]
  have hcast : ((i + 1 : Nat) : Int) - 1 = (i : Int) := by push_cast; ring
  simp only [Option.some_bind, hcast, pyGet_ofNat]

theorem suffix_append_left {pat xs tail : List Char}
    (h : pat.length ≤ tail.length) :
    pat <:+ xs ++ tail ↔ pat <:+ tail := by
  constructor
  · intro hs
    rw [List.suffix_iff_eq_drop, List.length_append,
      show xs.length + tail.length - pat.length =
        xs.length + (tail.length - pat.length) by omega,
      List.drop_append] at hs
    rw [hs]
    exact List.drop_suffix _ _
  · intro hs
    exact hs.trans (List.suffix_append xs tail)

theorem nameEndsWith_append (xs pat tail : List Char)
    (h : pat.length ≤ tail.length) :
    nameEndsWith (xs ++ tail) pat = nameEndsWith tail pat := by
  rw [nameEndsWith, nameEndsWith, Bool.eq_iff_iff,
    List.isSuffixOf_iff_suffix, List.isSuffixOf_iff_suffix]
  exact suffix_append_left h

theorem all_and_split (l : List ImageRef) (p q : ImageRef → Bool) :
    (l.all fun x => p x && q x) = (l.all p && l.all q) := by
  induction l with
  | nil => rfl
  | cons a l ih =>
    simp only [List.all_cons, ih]
    cases p a <;> cases q a <;> simp

theorem all_not_eq_not_any (l : List ImageRef) (p : ImageRef → Bool) :
    (l.all fun x => !(p x)) = !(l.any p) := by
  induction l with
  | nil => rfl
  | cons a l ih =>
    simp only [List.all_cons, List.any_cons, ih]
    cases p a <;> simp


/-- C1 counterexample: a validator run that exits zero with a report
containing ErrorMessage is classified malformed (pdfIsValid is false and
the INVALID warning is logged), yet validate_pdfa still copies the
candidate to the destination output path, so the claim that a malformed
classification prevents delivery is false on the code. -/
theorem validate_malformed_still_copied :
    pdfIsValid "ErrorMessage".toList = false ∧
    validate_pdfa ⟨0, "ErrorMessage", ""⟩ =
      ([(LogLevel.debug, "ErrorMessage"),
        (LogLevel.warning,
          "Output file: The generated PDF/A file is INVALID")],
        .ok true) := by
  decide

/-- C1 amended: for every validation run in which the validator process
exits zero, the candidate is copied to the destination output path
regardless of how the report is classified, the classification being
surfaced only via the logged warning or info line; only a nonzero
validator exit code prevents delivery, by raising RuntimeError. -/
theorem validate_delivery_by_exit_code (jhove : ProcResult) :
    (jhove.returncode = 0 → (validate_pdfa jhove).2 = .ok true) ∧
    (jhove.returncode ≠ 0 →
      (validate_pdfa jhove).2 = .raised (.runtimeError
        "Unexpected error while checking compliance to PDF/A file.")) := by
  constructor
  · intro h0
    rw [validate_pdfa, if_neg (by simp [h0])]
  · intro hne
    rw [validate_pdfa, if_pos hne]

/-- C1 amended witness: at a malformed-classified report with exit code
zero the candidate is delivered, and at exit code one RuntimeError is
raised. -/
theorem validate_delivery_by_exit_code_witness :
    (validate_pdfa ⟨0, "ErrorMessage", ""⟩).2 = .ok true ∧
    (validate_pdfa ⟨1, "", ""⟩).2 = .raised (.runtimeError
      "Unexpected error while checking compliance to PDF/A file.") :=
  ⟨(validate_delivery_by_exit_code ⟨0, "ErrorMessage", ""⟩).1 rfl,
    (validate_delivery_by_exit_code ⟨1, "", ""⟩).2 (by decide)⟩

/-- C7 counterexample: the populate operation of the metadata store is a
plain list extend; calling it a second time does not fail with any
AlreadyPopulatedError but returns normally with the descriptors
appended twice, so the store length is two after two one-page
populates. -/
theorem populate_twice_no_error :
    repair_pdf "input.pdf" "output.pdf" 0 [samplePage] [] =
      .ok [samplePage] ∧
    repair_pdf "input.pdf" "output.pdf" 0 [samplePage] [samplePage] =
      .ok [samplePage, samplePage] := by
  decide

/-- C7 amended: the populate operation is the single extend call inside
the repair stage, performed under the store lock; populating the empty
store yields a store whose length equals the page count of the repaired
document, and a second populate does not fail but appends the
descriptors again. -/
theorem populate_extends_store (fin fout : String)
    (doc store : List PageDescriptor) :
    repair_pdf fin fout 0 doc store = .ok (store ++ doc) ∧
    (∃ st, repair_pdf fin fout 0 doc [] = .ok st ∧
      st.length = doc.length) := by
  refine ⟨by simp [repair_pdf, pdf_get_all_pageinfo], doc, ?_, rfl⟩
  simp [repair_pdf, pdf_get_all_pageinfo]

/-- C10: for every page whose descriptor records no embedded images, the
rasterize stage selects the 1-bit monochrome device pngmono, both
universal composition checks holding vacuously, and returns normally. -/
theorem empty_images_monochrome (input_file : FileName)
    (pdfinfo : PdfInfoStore) (gs : ProcResult) (pd : PageDescriptor)
    (hpd : get_pageinfo input_file pdfinfo = some pd)
    (himg : pd.images = []) :
    ∃ run, rasterize_with_ghostscript input_file pdfinfo gs =
      some (.ok run) ∧ run.device = "pngmono" := by
  cases hb : gs.returncode == 0 with
  | true =>
    refine ⟨⟨rasterDevice pd.images,
      (if gs.stdout ≠ "" then [(LogLevel.debug, gs.stdout)] else []) ++
      (if gs.stderr ≠ "" then [(LogLevel.error, gs.stderr)] else []),
      true⟩, ?_, by rw [himg]; rfl⟩
    rw [rasterize_with_ghostscript, hpd]
    simp [hb]
  | false =>
    refine ⟨⟨rasterDevice pd.images,
      ((if gs.stdout ≠ "" then [(LogLevel.debug, gs.stdout)] else []) ++
      (if gs.stderr ≠ "" then [(LogLevel.error, gs.stderr)] else [])) ++
      [(LogLevel.error, "Ghostscript rendering failed")],
      false⟩, ?_, by rw [himg]; rfl⟩
    rw [rasterize_with_ghostscript, hpd]
    simp [hb]

/-- C10 witness: a one-page store whose page records no embedded images
makes the rasterize stage pick pngmono. -/
theorem empty_images_monochrome_witness :
    ∃ run, rasterize_with_ghostscript "000001.page.png".toList [samplePage]
      ⟨0, "", ""⟩ = some (.ok run) ∧ run.device = "pngmono" :=
  empty_images_monochrome "000001.page.png".toList [samplePage]
    ⟨0, "", ""⟩ samplePage (by decide) (by decide)

/-- C5: the device selection of the rasterize stage agrees, for every
image composition, with the rule as the specification words it: 1-bit
monochrome when every embedded image has one color component and one bit
per component, grayscale when every image has one component, not all are
one bit per component and no image has the color colorspace, and 24-bit
color otherwise. -/
theorem raster_device_matches_spec (images : List ImageRef) :
    rasterDevice images = specRasterDevice images := by
  rw [rasterDevice, specRasterDevice, all_and_split, all_not_eq_not_any]
  cases h1 : images.all fun image => image.comp == 1 <;>
    cases h2 : images.all fun image => image.bpc == 1 <;>
      cases h3 : images.any fun image => image.color == "color" <;>
        simp

/-- The join-key lemma for artifacts that live inside a directory: the
basename strips the directory, so the metadata read is the same as for
the bare artifact name. -/
theorem get_pageinfo_dir (dir : FileName) (pdfinfo : PdfInfoStore)
    (i : Nat) (tail : FileName) (hi : i + 1 < 10 ^ 6)
    (htail : ∀ c ∈ tail, c ≠ '/') :
    get_pageinfo (dir ++ '/' :: (percent06d (i + 1) ++ tail)) pdfinfo =
      pdfinfo.get? i := by
  have hns : ∀ c ∈ percent06d (i + 1) ++ tail, c ≠ '/' := by
    intro c hc
    rcases List.mem_append.mp hc with h | h
    · exact percent06d_ne_slash (i + 1) c h
    · exact htail c h
  have h1 : basename (dir ++ '/' :: (percent06d (i + 1) ++ tail)) =
      basename (percent06d (i + 1) ++ tail) := by
    rw [basename_dir _ _ hns, basename_noslash _ hns]
  rw [get_pageinfo, h1, ← get_pageinfo,
    get_pageinfo_padded pdfinfo i tail hi htail]

/-- C4: the zero-based page index is recovered deterministically from
the artifact name alone: the split stage writes the page artifact for
zero-based page i under the fixed-width six-digit one-based prefix
i + 1 inside the working directory, and get_pageinfo parses the first
six characters of the basename, subtracts one, and reads the store, so
the descriptor read for that artifact is exactly store entry i. -/
theorem split_prefix_is_join_key (dir : FileName)
    (pdfinfo : PdfInfoStore) (i : Nat) (hi : i + 1 < 10 ^ 6) :
    get_pageinfo (splitPageName (dir ++ ['/']) (i + 1)) pdfinfo =
      pdfinfo.get? i := by
  rw [splitPageName, show dir ++ ['/'] ++ percent06d (i + 1) ++
      ".page.pdf".toList =
      dir ++ '/' :: (percent06d (i + 1) ++ ".page.pdf".toList) by simp]
  exact get_pageinfo_dir dir pdfinfo i ".page.pdf".toList hi (by decide)

/-- C4 witness: in a three-page store, the artifact named tmp/000003
yields store entry 2. -/
theorem split_prefix_is_join_key_witness :
    get_pageinfo (splitPageName ("tmp".toList ++ ['/']) 3)
      [samplePage, sampleFractionalPage, samplePage] =
      some samplePage := by
  rw [split_prefix_is_join_key "tmp".toList
    [samplePage, sampleFractionalPage, samplePage] 2 (by norm_num)]
  rfl

/-- C2 counterexample: a rasterize run whose ghostscript process exits
with code one returns normally with only a logged error message and no
output written; no tool-execution error carrying the exit code is
raised, so a rasterize failure is logged and skipped rather than
aborting the job, contradicting the claim. -/
theorem rasterize_failure_not_raised :
    rasterize_with_ghostscript "000001.page.png".toList [samplePage]
      ⟨1, "", ""⟩ =
      some (.ok ⟨"pngmono",
        [(LogLevel.error, "Ghostscript rendering failed")], false⟩) := by
  decide

/-- C2 amended: on a nonzero tool exit code the repair, split, text
recognition and merge stages raise CalledProcessError carrying the exit
code and argument vector, which is fatal to the job; the rasterize stage
is the exception: it logs the message Ghostscript rendering failed and
returns normally without copying its output. -/
theorem nonzero_exit_error_policy :
    (∀ (input_file : FileName) (pdfinfo : PdfInfoStore) (gs : ProcResult)
      (pd : PageDescriptor), get_pageinfo input_file pdfinfo = some pd →
      gs.returncode ≠ 0 →
      ∃ run, rasterize_with_ghostscript input_file pdfinfo gs =
        some (.ok run) ∧ run.copiedOutput = false ∧
        (LogLevel.error, "Ghostscript rendering failed") ∈ run.logs) ∧
    (∀ (language config : List String) (input_file : FileName)
      (out_file : String) (pdfinfo : PdfInfoStore) (r : ProcResult)
      (pd : PageDescriptor) (tool_output : HocrFile),
      get_pageinfo input_file pdfinfo = some pd → r.returncode ≠ 0 →
      ∃ logs, ocr_tesseract language config input_file out_file pdfinfo
        (.completed r) tool_output =
        some (logs, .raised (.calledProcessError r.returncode
          (args_tesseract language config (String.mk input_file)
            out_file)))) ∧
    (∀ (fin fout : String) (rc : Int) (doc : List PageDescriptor)
      (store : PdfInfoStore), rc ≠ 0 →
      repair_pdf fin fout rc doc store =
        .raised (.calledProcessError rc (args_mutool fin fout))) ∧
    (∀ (fin root_str : String) (rc : Int), rc ≠ 0 →
      split_pages fin root_str rc =
        .raised (.calledProcessError rc (args_pdfseparate fin root_str))) ∧
    (∀ (files : List FileName) (tmp : String) (rc : Int) (ps : FileName),
      rc ≠ 0 → pyGet files (-1) = some ps →
      merge_pages files tmp rc =
        some (.raised (.calledProcessError rc (mergeGsHead tmp ++
          [String.mk ps] ++ files.dropLast.map String.mk)))) := by
  refine ⟨?_, ?_, ?_, ?_, ?_⟩
  · intro input_file pdfinfo gs pd hpd hrc
    have hb : (gs.returncode == 0) = false := by simpa using hrc
    refine ⟨⟨rasterDevice pd.images,
      ((if gs.stdout ≠ "" then [(LogLevel.debug, gs.stdout)] else []) ++
      (if gs.stderr ≠ "" then [(LogLevel.error, gs.stderr)] else [])) ++
      [(LogLevel.error, "Ghostscript rendering failed")],
      false⟩, ?_, rfl, by simp⟩
    rw [rasterize_with_ghostscript, hpd]
    simp [hb]
  · intro language config input_file out_file pdfinfo r pd tool_output
      hpd hrc
    refine ⟨(if r.stdout ≠ "" then [(LogLevel.info, r.stdout)] else []) ++
      (if r.stderr ≠ "" then [(LogLevel.error, r.stderr)] else []), ?_⟩
    rw [ocr_tesseract, hpd]
    simp [hrc]
  · intro fin fout rc doc store hrc
    rw [repair_pdf, if_pos hrc]
  · intro fin root_str rc hrc
    rw [split_pages, if_pos hrc]
  · intro files tmp rc ps hrc hps
    rw [merge_pages, hps]
    simp [hrc]

/-- C2 amended witness: each stage instantiated at a concrete nonzero
exit code shows the raised error carrying that exit code, and the
rasterize stage returning normally with the logged failure. -/
theorem nonzero_exit_error_policy_witness :
    (∃ run, rasterize_with_ghostscript "000001.page.png".toList
      [samplePage] ⟨2, "", ""⟩ = some (.ok run) ∧
      run.copiedOutput = false ∧
      (LogLevel.error, "Ghostscript rendering failed") ∈ run.logs) ∧
    (∃ logs, ocr_tesseract ["eng"] [] "000001.page.png".toList
      "000001.hocr" [samplePage] (.completed ⟨3, "", ""⟩)
      (hocrTemplate 1 1) =
      some (logs, .raised (.calledProcessError 3
        (args_tesseract ["eng"] [] (String.mk "000001.page.png".toList)
          "000001.hocr")))) ∧
    repair_pdf "a.pdf" "b.pdf" 4 [] [] =
      .raised (.calledProcessError 4 (args_mutool "a.pdf" "b.pdf")) ∧
    split_pages "b.pdf" "tmp/" 5 =
      .raised (.calledProcessError 5 (args_pdfseparate "b.pdf" "tmp/")) ∧
    merge_pages ["pdfa.ps".toList] "merged.pdf" 6 =
      some (.raised (.calledProcessError 6 (mergeGsHead "merged.pdf" ++
        [String.mk "pdfa.ps".toList] ++
        (["pdfa.ps".toList].dropLast.map String.mk)))) :=
  ⟨nonzero_exit_error_policy.1 "000001.page.png".toList [samplePage]
      ⟨2, "", ""⟩ samplePage (by decide) (by decide),
    nonzero_exit_error_policy.2.1 ["eng"] [] "000001.page.png".toList
      "000001.hocr" [samplePage] ⟨3, "", ""⟩ samplePage
      (hocrTemplate 1 1) (by decide) (by decide),
    nonzero_exit_error_policy.2.2.1 "a.pdf" "b.pdf" 4 [] [] (by decide),
    nonzero_exit_error_policy.2.2.2.1 "b.pdf" "tmp/" 5 (by decide),
    nonzero_exit_error_policy.2.2.2.2 ["pdfa.ps".toList] "merged.pdf" 6
      "pdfa.ps".toList (by decide) (by decide)⟩

/-- C9 counterexample: a text recognition run that completes with exit
code zero and nonempty captured stdout logs that stdout at the info
level, not the debug level, so the claimed uniform routing of captured
stdout to the debug sink is false on the code. -/
theorem ocr_stdout_goes_to_info :
    ocr_tesseract ["eng"] [] "000001.page.png".toList "000001.hocr"
      [samplePage] (.completed ⟨0, "x", ""⟩) (hocrTemplate 1 1) =
      some ([(LogLevel.info, "x")], .ok (hocrTemplate 1 1)) ∧
    LogLevel.info ≠ LogLevel.debug := by
  decide

/-- C9 amended: the rasterize stage routes nonempty captured stdout to
the debug sink and nonempty captured stderr to the error sink; the text
recognition stage, for every completed run whatever its exit code,
routes nonempty captured stdout to the info sink (never the debug sink)
and nonempty captured stderr to the error sink before the exit code is
checked; the validation stage logs its captured report at the debug
level on every run, and logs it again at the error level before raising
when the validator exits nonzero. All messages go through the shared
mutex-guarded logger facade. -/
theorem stream_routing_per_stage :
    (∀ (input_file : FileName) (pdfinfo : PdfInfoStore) (gs : ProcResult)
      (pd : PageDescriptor), get_pageinfo input_file pdfinfo = some pd →
      ∃ run, rasterize_with_ghostscript input_file pdfinfo gs =
        some (.ok run) ∧
        (gs.stdout ≠ "" → (LogLevel.debug, gs.stdout) ∈ run.logs) ∧
        (gs.stderr ≠ "" → (LogLevel.error, gs.stderr) ∈ run.logs)) ∧
    (∀ (language config : List String) (input_file : FileName)
      (out_file : String) (pdfinfo : PdfInfoStore) (r : ProcResult)
      (pd : PageDescriptor) (tool_output : HocrFile),
      get_pageinfo input_file pdfinfo = some pd →
      ∃ logs outc, ocr_tesseract language config input_file out_file
        pdfinfo (.completed r) tool_output = some (logs, outc) ∧
        (r.stdout ≠ "" → (LogLevel.info, r.stdout) ∈ logs) ∧
        (r.stderr ≠ "" → (LogLevel.error, r.stderr) ∈ logs) ∧
        (∀ m, (LogLevel.debug, m) ∉ logs)) ∧
    (∀ jhove : ProcResult,
      (LogLevel.debug, jhove.stdout) ∈ (validate_pdfa jhove).1 ∧
      (jhove.returncode ≠ 0 →
        (LogLevel.error, jhove.stdout) ∈ (validate_pdfa jhove).1)) := by
  refine ⟨?_, ?_, ?_⟩
  · intro input_file pdfinfo gs pd hpd
    cases hb : gs.returncode == 0 with
    | true =>
      refine ⟨⟨rasterDevice pd.images,
        (if gs.stdout ≠ "" then [(LogLevel.debug, gs.stdout)] else []) ++
        (if gs.stderr ≠ "" then [(LogLevel.error, gs.stderr)] else []),
        true⟩, ?_, fun h => by simp [h], fun h => by simp [h]⟩
      rw [rasterize_with_ghostscript, hpd]
      simp [hb]
    | false =>
      refine ⟨⟨rasterDevice pd.images,
        ((if gs.stdout ≠ "" then [(LogLevel.debug, gs.stdout)] else []) ++
        (if gs.stderr ≠ "" then [(LogLevel.error, gs.stderr)] else [])) ++
        [(LogLevel.error, "Ghostscript rendering failed")],
        false⟩, ?_, fun h => by simp [h], fun h => by simp [h]⟩
      rw [rasterize_with_ghostscript, hpd]
      simp [hb]
  · intro language config input_file out_file pdfinfo r pd tool_output hpd
    refine ⟨(if r.stdout ≠ "" then [(LogLevel.info, r.stdout)] else []) ++
      (if r.stderr ≠ "" then [(LogLevel.error, r.stderr)] else []),
      (if r.returncode ≠ 0 then
        .raised (.calledProcessError r.returncode
          (args_tesseract language config (String.mk input_file)
            out_file))
      else .ok tool_output),
      ?_, fun h => by simp [h], fun h => by simp [h], ?_⟩
    · rw [ocr_tesseract, hpd]
      rfl
    · intro m hm
      rcases List.mem_append.mp hm with h | h <;>
        split_ifs at h <;> simp at h
  · intro jhove
    by_cases h0 : jhove.returncode ≠ 0
    · rw [validate_pdfa, if_pos h0]
      exact ⟨by simp, fun _ => by simp⟩
    · rw [validate_pdfa, if_neg h0]
      exact ⟨List.mem_cons_self _ _, fun h => absurd h h0⟩

/-- C9 amended witness: concrete runs of the three stages show the
logged levels, the text recognition and validation runs at nonzero exit
codes. -/
theorem stream_routing_per_stage_witness :
    (∃ run, rasterize_with_ghostscript "000001.page.png".toList
      [samplePage] ⟨0, "out", "err"⟩ = some (.ok run) ∧
      ("out" ≠ "" → (LogLevel.debug, "out") ∈ run.logs) ∧
      ("err" ≠ "" → (LogLevel.error, "err") ∈ run.logs)) ∧
    (∃ logs outc, ocr_tesseract ["eng"] [] "000001.page.png".toList
      "000001.hocr" [samplePage] (.completed ⟨5, "out", "err"⟩)
      (hocrTemplate 1 1) = some (logs, outc) ∧
      ("out" ≠ "" → (LogLevel.info, "out") ∈ logs) ∧
      ("err" ≠ "" → (LogLevel.error, "err") ∈ logs) ∧
      (∀ m, (LogLevel.debug, m) ∉ logs)) ∧
    ((LogLevel.debug, "report") ∈ (validate_pdfa ⟨2, "report", ""⟩).1 ∧
      ((2 : Int) ≠ 0 →
        (LogLevel.error, "report") ∈ (validate_pdfa ⟨2, "report", ""⟩).1)) :=
  ⟨stream_routing_per_stage.1 "000001.page.png".toList [samplePage]
      ⟨0, "out", "err"⟩ samplePage (by decide),
    stream_routing_per_stage.2.1 ["eng"] [] "000001.page.png".toList
      "000001.hocr" [samplePage] ⟨5, "out", "err"⟩ samplePage
      (hocrTemplate 1 1) (by decide),
    stream_routing_per_stage.2.2 ⟨2, "report", ""⟩⟩

/-- C6: with the scheduler delivering the per-page rendered documents in
ascending page order followed by the postscript stub, the merge stage
hands the compositor the fixed head, then the format-declaration stub
first, then the page documents in ascending page order; and the position
of every page artifact in the merge input equals the zero-based index
recovered from its six-digit numeric prefix (prefix value i + 1 at
position i). -/
theorem merge_order (n : Nat) (ps : FileName) (tmp : String) :
    merge_pages (mergeInputs n ps) tmp 0 =
      some (.ok (mergeGsHead tmp ++ [String.mk ps] ++
        ((List.range n).map fun i => String.mk (renderedPageName (i + 1))))) ∧
    ∀ i, i < n → i + 1 < 10 ^ 6 →
      ((mergeInputs n ps).get? i).bind (fun f => pyInt (f.take 6)) =
        some ((i : Int) + 1) := by
  have hL : ((List.range n).map fun i => renderedPageName (i + 1)).length
      = n := by simp
  constructor
  · rw [merge_pages]
    have hlast : pyGet (mergeInputs n ps) (-1) = some ps := by
      rw [pyGet, if_neg (by norm_num), if_pos
        (by rw [mergeInputs]; simp)]
      rw [mergeInputs, List.length_append, hL]
      norm_num
    rw [hlast]
    simp only [Option.map_some']
    rw [if_neg (by norm_num), mergeInputs, List.dropLast_concat,
      List.map_map]
    rfl
  · intro i hin hi6
    rw [mergeInputs, List.get?_append (by rw [hL]; exact hin),
      List.get?_map, List.get?_range hin]
    simp only [Option.map_some', Option.some_bind]
    rw [renderedPageName, take6_percent06d _ hi6, pyInt_percent06d]
    push_cast
    rfl

/-- C6 witness: a two-page job merged with the stub named pdfa.ps. -/
theorem merge_order_witness :
    merge_pages (mergeInputs 2 "pdfa.ps".toList) "merged.pdf" 0 =
      some (.ok (mergeGsHead "merged.pdf" ++
        [String.mk "pdfa.ps".toList] ++
        ((List.range 2).map fun i =>
          String.mk (renderedPageName (i + 1))))) ∧
    ((mergeInputs 2 "pdfa.ps".toList).get? 1).bind
      (fun f => pyInt (f.take 6)) = some ((1 : Int) + 1) :=
  ⟨(merge_order 2 "pdfa.ps".toList "merged.pdf").1,
    (merge_order 2 "pdfa.ps".toList "merged.pdf").2 1 (by decide)
      (by decide)⟩

/-- C3: when text recognition for zero-based page i times out, the stage
returns normally with the structurally valid fallback hOCR artifact
carrying the page dimensions and no recognized text, the render stage
for that page still succeeds and emits a single-page document with zero
glyph groups, invisible text, no bounding boxes and the page image as
visible layer; and in a whole job the result of every other page j is
unchanged by how page i came out. -/
theorem ocr_timeout_fallback (language config : List String)
    (pdfinfo : PdfInfoStore) (i : Nat) (pd : PageDescriptor)
    (tool_output : HocrFile) (hi : i + 1 < 10 ^ 6)
    (hpd : pdfinfo.get? i = some pd) :
    processPage language config pdfinfo i .timedOut tool_output =
      .rendered ⟨1, some (pageImageName (i + 1)), 0, true, false,
        pyRound (max pd.xres pd.yres)⟩ ∧
    (∀ (n : Nat) (oc oc2 : Nat → TessOutcome) (ht ht2 : Nat → HocrFile)
      (j : Nat), j ≠ i → (∀ k, k ≠ i → oc k = oc2 k) →
      (∀ k, k ≠ i → ht k = ht2 k) →
      (jobRender language config pdfinfo n oc ht).get? j =
        (jobRender language config pdfinfo n oc2 ht2).get? j) := by
  have himg : get_pageinfo (pageImageName (i + 1)) pdfinfo = some pd := by
    rw [pageImageName, get_pageinfo_padded pdfinfo i _ hi (by decide), hpd]
  constructor
  · have hocr : ocr_tesseract language config (pageImageName (i + 1))
        (String.mk (pageHocrName (i + 1))) pdfinfo .timedOut tool_output =
        some ([], .ok (hocrTemplate pd.width_pixels pd.height_pixels)) := by
      rw [ocr_tesseract, himg]
      rfl
    have hf1 : nameEndsWith (pageImageName (i + 1)) ".hocr".toList
        = false := by
      rw [pageImageName, nameEndsWith_append _ _ _ (by decide)]
      decide
    have hf2 : nameEndsWith (pageHocrName (i + 1)) ".hocr".toList
        = true := by
      rw [pageHocrName, nameEndsWith_append _ _ _ (by decide)]
      decide
    have hf3 : nameEndsWith (pageImageName (i + 1)) ".page.png".toList
        = true := by
      rw [pageImageName, nameEndsWith_append _ _ _ (by decide)]
      decide
    have hrender : render_page
        [pageImageName (i + 1), pageHocrName (i + 1)] pdfinfo
        (hocrTemplate pd.width_pixels pd.height_pixels) =
        some ⟨1, some (pageImageName (i + 1)), 0, true, false,
          pyRound (max pd.xres pd.yres)⟩ := by
      rw [render_page]
      simp only [List.find?, hf1, hf2, hf3, Option.some_bind]
      rw [himg]
      rfl
    simp only [processPage, hocr, hrender]
  · intro n oc oc2 ht ht2 j hj hoc hht
    rw [jobRender, jobRender]
    by_cases hjn : j < n
    · rw [List.get?_map, List.get?_map, List.get?_range hjn]
      simp only [Option.map_some']
      rw [hoc j hj, hht j hj]
    · have hnone : (List.range n).get? j = none :=
        List.get?_eq_none.mpr (by simpa using le_of_not_lt hjn)
      rw [List.get?_map, List.get?_map, hnone]
      rfl

/-- C3 witness: in a two-page job where page 0 times out, page 0 renders
with zero glyphs and the result of page 1 does not depend on the outcome
of page 0. -/
theorem ocr_timeout_fallback_witness :
    processPage ["eng"] [] [samplePage, samplePage] 0 .timedOut
      (hocrTemplate 1 1) =
      .rendered ⟨1, some (pageImageName 1), 0, true, false,
        pyRound (max samplePage.xres samplePage.yres)⟩ ∧
    (jobRender ["eng"] [] [samplePage, samplePage] 2
      (fun _ => .timedOut) (fun _ => hocrTemplate 1 1)).get? 1 =
    (jobRender ["eng"] [] [samplePage, samplePage] 2
      (fun k => if k = 0 then .completed ⟨0, "", ""⟩ else .timedOut)
      (fun _ => hocrTemplate 1 1)).get? 1 :=
  have h := ocr_timeout_fallback ["eng"] [] [samplePage, samplePage] 0
    samplePage (hocrTemplate 1 1) (by decide) (by decide)
  ⟨h.1, h.2 2 _ _ _ _ 1 (by decide) (fun k hk => by simp [hk])
    (fun _ _ => rfl)⟩

/-- C8 counterexample: on a page whose larger text-placement resolution
is 300.7, the render stage positions text at dpi 301, the Python round
of the maximum, which differs from the maximum itself, so the claim
that the transform dpi equals max of xres and yres is false on the
code. -/
theorem render_dpi_not_max :
    render_page [pageImageName 1, pageHocrName 1] [sampleFractionalPage]
      (hocrTemplate 2550 3300) =
      some ⟨1, some (pageImageName 1), 0, true, false, 301⟩ ∧
    ((301 : ℚ) ≠
      max sampleFractionalPage.xres sampleFractionalPage.yres) := by
  have hxr : sampleFractionalPage.xres = (3007 : ℚ) / 10 := rfl
  have hyr : sampleFractionalPage.yres = (300 : ℚ) := rfl
  have hmax : max sampleFractionalPage.xres sampleFractionalPage.yres =
      (3007 : ℚ) / 10 := by
    rw [hxr, hyr]
    exact max_eq_left (by norm_num)
  constructor
  · have hf1 : nameEndsWith (pageImageName 1) ".hocr".toList = false := by
      decide
    have hf2 : nameEndsWith (pageHocrName 1) ".hocr".toList = true := by
      decide
    have hf3 : nameEndsWith (pageImageName 1) ".page.png".toList
        = true := by decide
    have himg : get_pageinfo (pageImageName 1) [sampleFractionalPage] =
        some sampleFractionalPage :=
      get_pageinfo_padded [sampleFractionalPage] 0 ".page.png".toList
        (by norm_num) (by decide)
    have hfloor : ⌊(3007 : ℚ) / 10⌋ = 300 := by
      rw [Int.floor_eq_iff]
      constructor <;> norm_num
    have hround : pyRound (max sampleFractionalPage.xres
        sampleFractionalPage.yres) = 301 := by
      rw [hmax, pyRound, hfloor, if_neg (by push_cast; norm_num),
        if_pos (by push_cast; norm_num)]
      rfl
    rw [render_page]
    simp only [List.find?, hf1, hf2, hf3, Option.some_bind]
    rw [himg]
    simp only [Option.map_some']
    rw [hocrTransform_to_pdf, hround]
    rfl
  · rw [hmax]
    norm_num

/-- C8 amended: the render stage emits one single-page document whose
visible layer is the page image, whose text is invisible ink with no
bounding-box decoration, whose glyph groups are the recognized words of
the hOCR input, and whose pixel-to-point transform dpi is the Python
round (nearest integer, ties to even) of the larger of the xres and yres
entries of the page descriptor read from the metadata store. -/
theorem render_uses_rounded_dpi (infiles : List FileName)
    (pdfinfo : PdfInfoStore) (hocr_content : HocrFile)
    (hfile image : FileName) (pd : PageDescriptor)
    (h1 : infiles.find? (fun ii => nameEndsWith ii ".hocr".toList) =
      some hfile)
    (h2 : infiles.find? (fun ii => nameEndsWith ii ".page.png".toList) =
      some image)
    (h3 : get_pageinfo image pdfinfo = some pd) :
    render_page infiles pdfinfo hocr_content =
      some ⟨1, some image, hocr_content.words.length, true, false,
        pyRound (max pd.xres pd.yres)⟩ := by
  rw [render_page, h1, Option.some_bind, h2, Option.some_bind, h3]
  rfl

/-- C8 amended witness: a concrete collate group rendered against a
one-page store. -/
theorem render_uses_rounded_dpi_witness :
    render_page [pageImageName 1, pageHocrName 1] [samplePage]
      (hocrTemplate 2550 3300) =
      some ⟨1, some (pageImageName 1),
        (hocrTemplate 2550 3300).words.length, true, false,
        pyRound (max samplePage.xres samplePage.yres)⟩ :=
  render_uses_rounded_dpi [pageImageName 1, pageHocrName 1] [samplePage]
    (hocrTemplate 2550 3300) (pageHocrName 1) (pageImageName 1) samplePage
    (by decide) (by decide) (by decide)

end OCRmyPDF
